import Mathlib

/-!
Verification of the `faceDetect` repository (presence_guard.py, face_detect.py).

The two scripts are single-threaded polling loops.  We embed each loop body as
a pure step function over an explicit state, with the outside world (camera,
face-recognition capability, bluetooth, clock) supplied as a per-iteration
input record, and the observable actions of one iteration (lock_session
invocations, sleeps) collected as an event list.

Times and distances are modelled as rationals.  The scripts compare the
minimum Euclidean norm `best` against `ALLOWED_TOLERANCE`; both sides are
nonnegative, so `best <= tol` holds iff `best^2 <= tol^2`, and we embed the
comparison on squared distances (`dist2`, a sum of squares of coordinate
differences) to stay inside `ℚ`.
-/

/-- A face embedding: a real-valued vector (`face_recognition` encodings). -/
abbrev Emb := List ℚ

/-- Squared Euclidean distance between two embeddings:
`np.linalg.norm(k - e)` squared. -/
def dist2 (x y : Emb) : ℚ :=
  (List.zipWith (fun a b => (a - b) ^ 2) x y).sum

/-- `best = float(np.min(dists))` with `dists = np.linalg.norm(known - e, axis=1)`,
squared.  `known` is nonempty whenever this runs (guaranteed by startup);
the `[]` case is an arbitrary default. -/
def bestDist2 (known : List Emb) (e : Emb) : ℚ :=
  match known.map (fun k => dist2 k e) with
  | [] => 0
  | d :: ds => ds.foldl min d

/-- Observable actions of one loop iteration. -/
inductive Event where
  | lock
  | sleep (d : ℚ)
deriving DecidableEq, Repr

/-- Timestamped log lines relevant to the claims (identified by tag, with the
enrollment file name or lock command where the line mentions one). -/
inductive LogEvent where
  | noFaceInEnroll (file : String)
  | loadedEnroll (file : String)
  | errorLoading (file : String)
  | lockedVia (cmd : List String)
  | lockAttemptError (cmd : List String)
  | allLockFailed
deriving DecidableEq, Repr

/-- Outcome of `subprocess.run(cmd, check=True, timeout=5)` for one lock
command (the exception raised, if any). -/
inductive CmdOutcome where
  | success
  | fileNotFoundError
  | calledProcessError
  | timeoutExpired
deriving DecidableEq, Repr

/-- The fixed cascade of lock commands (identical in both scripts). -/
def lockCmds : List (List String) :=
  [["loginctl", "lock-sessions"],
   ["gnome-screensaver-command", "--lock"],
   ["xdg-screensaver", "lock"],
   ["dm-tool", "lock"]]

namespace PresenceGuard

/-- Configuration constants of presence_guard.py that the modelled code reads.
`ALLOWED_TOLERANCE` keeps its source meaning (a distance bound); comparisons
in the model use its square, see the file header. -/
structure Config where
  ALLOWED_TOLERANCE : ℚ
  CHECK_INTERVAL : ℚ
  LOCK_COOLDOWN : ℚ
  ABSENCE_TIMEOUT : ℚ
  USE_BLUETOOTH : Bool
  USE_CNN_FALLBACK : Bool
  ENCODING_EVERY_N : Nat
deriving Repr

/-- The values hard-coded in presence_guard.py's CONFIG block. -/
def defaultConfig : Config :=
  { ALLOWED_TOLERANCE := 65 / 100
    CHECK_INTERVAL := 35 / 100
    LOCK_COOLDOWN := 4
    ABSENCE_TIMEOUT := 6
    USE_BLUETOOTH := false
    USE_CNN_FALLBACK := true
    ENCODING_EVERY_N := 1 }

/-- `lock_session` of presence_guard.py: every failure is absorbed by a bare
`except Exception: continue` (no per-command log); returns whether any command
succeeded, the commands attempted in order, and the log lines written. -/
def lock_session_go (run : List String → CmdOutcome) :
    List (List String) → Bool × List (List String) × List LogEvent
  | [] => (false, [], [.allLockFailed])
  | c :: rest =>
    match run c with
    | .success => (true, [c], [.lockedVia c])
    | _ =>
      let r := lock_session_go run rest
      (r.1, c :: r.2.1, r.2.2)

def lock_session (run : List String → CmdOutcome) :
    Bool × List (List String) × List LogEvent :=
  lock_session_go run lockCmds

/-- Mutable loop state of presence_guard.py's `main` (lines 148-149). -/
structure GuardState where
  last_seen_someone : ℚ
  frame_i : Nat
deriving DecidableEq, Repr

/-- `last_seen_someone = datetime.now(); frame_i = 0` just before the loop. -/
def initState (now : ℚ) : GuardState :=
  { last_seen_someone := now, frame_i := 0 }

/-- The outside world for one loop iteration: result of `is_phone_present`
(already failure-absorbed to a Bool by that function), whether `latest_frame`
returned a frame, the two detector calls (which may raise), the
`face_encodings(rgb, face_locations)` result, and `datetime.now()`. -/
structure IterInput where
  phonePresent : Bool
  frameOk : Bool
  hog : Except Unit (List Nat)
  cnn : Except Unit (List Nat)
  encs : List Emb
  now : ℚ

/-- `detect_faces_rgb`: fast HOG, then one CNN pass iff HOG found nothing and
the fallback is enabled.  An exception from either call propagates. -/
def detect_faces_rgb (cfg : Config) (hog cnn : Except Unit (List Nat)) :
    Except Unit (List Nat) :=
  match hog with
  | .error e => .error e
  | .ok locs => if locs.isEmpty && cfg.USE_CNN_FALLBACK then cnn else .ok locs

/-- Result of one loop-body execution: `next` means the body ran to its end
(or hit a `continue`) with the new state and the events it performed;
`crashed` means an exception escaped the body, so the top-level handler logs
the crash, releases the camera and the loop terminates. -/
inductive StepResult where
  | next (s : GuardState) (evs : List Event)
  | crashed (evs : List Event)
deriving DecidableEq, Repr

/-- One iteration of presence_guard.py's main loop (lines 152-217). -/
def guardStep (cfg : Config) (known : List Emb) (s : GuardState)
    (inp : IterInput) : StepResult :=
  if cfg.USE_BLUETOOTH && !inp.phonePresent then
    .next s [.lock, .sleep cfg.LOCK_COOLDOWN]
  else if !inp.frameOk then
    .next s [.sleep cfg.CHECK_INTERVAL]
  else
    match detect_faces_rgb cfg inp.hog inp.cnn with
    | .error _ => .crashed []
    | .ok face_locations =>
      let n_faces := face_locations.length
      if n_faces = 1 then
        let authorized :=
          if s.frame_i % cfg.ENCODING_EVERY_N = 0 then
            match inp.encs with
            | [] => false
            | e :: _ => decide (bestDist2 known e ≤ cfg.ALLOWED_TOLERANCE ^ 2)
          else false
        if authorized then
          .next { last_seen_someone := inp.now, frame_i := s.frame_i + 1 }
            [.sleep cfg.CHECK_INTERVAL]
        else
          .next { s with frame_i := s.frame_i + 1 }
            [.lock, .sleep cfg.LOCK_COOLDOWN, .sleep cfg.CHECK_INTERVAL]
      else
        -- source guard is `if n_faces != 1: ...; continue` before the
        -- single-face code; stated here as the equivalent positive test
        if n_faces = 0 then
          if cfg.ABSENCE_TIMEOUT ≤ inp.now - s.last_seen_someone then
            .next s [.lock, .sleep cfg.LOCK_COOLDOWN, .sleep cfg.CHECK_INTERVAL]
          else
            .next s [.sleep cfg.CHECK_INTERVAL]
        else
          .next s [.lock, .sleep cfg.LOCK_COOLDOWN, .sleep cfg.CHECK_INTERVAL]

/-- Per-file outcome of the enrollment-loading body (lines 101-114):
an exception anywhere in the body, no face located, a located face whose
encoding list came back empty, or a usable embedding. -/
inductive EnrollOutcome where
  | raises
  | noFace
  | noEncoding
  | ok (e : Emb)
deriving DecidableEq

structure EnrollFile where
  name : String
  outcome : EnrollOutcome

/-- Body of the enrollment `for` loop, processing the files in order and
collecting embeddings and log lines (both in chronological order). -/
def load_go : List EnrollFile → List Emb × List LogEvent
  | [] => ([], [])
  | f :: fs =>
    let acc := load_go fs
    match f.outcome with
    | .raises => (acc.1, .errorLoading f.name :: acc.2)
    | .noFace => (acc.1, .noFaceInEnroll f.name :: acc.2)
    | .noEncoding => acc
    | .ok e => (e :: acc.1, .loadedEnroll f.name :: acc.2)

/-- `load_known_encodings`: accumulates one embedding per usable file, logging
a warning and skipping files without a face and files that raise.  Returns
`none` when the final list is empty (`np.array(encodings) if encodings else
None`), plus the log lines written. -/
def load_known_encodings (files : List EnrollFile) :
    Option (List Emb) × List LogEvent :=
  let r := load_go files
  (if r.1.isEmpty then none else some r.1, r.2)

/-- The world as startup sees it: does ENROLL_DIR exist, the per-file
enrollment outcomes, and whether `open_camera` finds a device. -/
structure StartupEnv where
  enrollDirExists : Bool
  files : List EnrollFile
  cameraOpens : Bool

/-- Result of `main`'s startup phase (lines 129-149). -/
inductive StartupResult where
  | exitNonZero (code : Nat)
  | enterLoop (known : List Emb)

/-- Startup of presence_guard.py's `main`: enrollment-dir check, encoding
load, camera open; first failure exits with status 1 before the loop. -/
def startup (env : StartupEnv) : StartupResult :=
  if !env.enrollDirExists then .exitNonZero 1
  else
    match (load_known_encodings env.files).1 with
    | none => .exitNonZero 1
    | some known =>
      if known.length = 0 then .exitNonZero 1
      else if !env.cameraOpens then .exitNonZero 1
      else .enterLoop known

end PresenceGuard

namespace FaceDetect

/-- Configuration constants of face_detect.py that the modelled code reads. -/
structure Config where
  ALLOWED_TOLERANCE : ℚ
  CHECK_INTERVAL : ℚ
  LOCK_COOLDOWN : ℚ
deriving Repr

/-- The values hard-coded in face_detect.py's CONFIG block. -/
def defaultConfig : Config :=
  { ALLOWED_TOLERANCE := 45 / 100
    CHECK_INTERVAL := 2
    LOCK_COOLDOWN := 5 }

/-- `lock_session` of face_detect.py: `FileNotFoundError` and
`CalledProcessError` fall through silently; any other exception (e.g. a
timeout) is logged; there is no `continue` after that log, but the `for` loop
advances anyway. -/
def lock_session_go (run : List String → CmdOutcome) :
    List (List String) → Bool × List (List String) × List LogEvent
  | [] => (false, [], [.allLockFailed])
  | c :: rest =>
    match run c with
    | .success => (true, [c], [.lockedVia c])
    | .fileNotFoundError =>
      let r := lock_session_go run rest
      (r.1, c :: r.2.1, r.2.2)
    | .calledProcessError =>
      let r := lock_session_go run rest
      (r.1, c :: r.2.1, r.2.2)
    | .timeoutExpired =>
      let r := lock_session_go run rest
      (r.1, c :: r.2.1, .lockAttemptError c :: r.2.2)

def lock_session (run : List String → CmdOutcome) :
    Bool × List (List String) × List LogEvent :=
  lock_session_go run lockCmds

/-- face_detect.py's only loop variable: `last_lock_time` (written on every
lock, never read). -/
structure FdState where
  last_lock_time : Option ℚ
deriving DecidableEq, Repr

/-- The outside world for one face_detect.py iteration: whether `cap.read()`
succeeded, the `face_encodings(rgb_frame, face_locations)` list (the script
counts faces by this list's length), and `datetime.now()`. -/
structure FdInput where
  readOk : Bool
  encs : List Emb
  now : ℚ

/-- One iteration of face_detect.py's main loop (lines 99-139). -/
def fdStep (cfg : Config) (known : List Emb) (s : FdState) (inp : FdInput) :
    FdState × List Event :=
  if !inp.readOk then
    (s, [.sleep cfg.CHECK_INTERVAL])
  else
    match inp.encs with
    | [e] =>
      if bestDist2 known e ≤ cfg.ALLOWED_TOLERANCE ^ 2 then
        (s, [.sleep cfg.CHECK_INTERVAL])
      else
        ({ last_lock_time := some inp.now }, [.lock, .sleep cfg.LOCK_COOLDOWN])
    | _ =>
      ({ last_lock_time := some inp.now }, [.lock, .sleep cfg.LOCK_COOLDOWN])

end FaceDetect

/-- Every `lock` event in the list is immediately followed by a sleep of
duration `d` (the cooldown). -/
def locksFollowedByCooldown (d : ℚ) : List Event → Prop
  | [] => True
  | .lock :: rest => rest.head? = some (.sleep d) ∧ locksFollowedByCooldown d rest
  | .sleep _ :: rest => locksFollowedByCooldown d rest

/-- A presence_guard.py iteration that reaches detection and finds exactly
one face: the bluetooth gate passes, the frame read succeeds, and
`detect_faces_rgb` returns a single location. -/
def singleFaceIter (cfg : PresenceGuard.Config) (inp : PresenceGuard.IterInput) : Prop :=
  (cfg.USE_BLUETOOTH && !inp.phonePresent) = false ∧
  inp.frameOk = true ∧
  ∃ l, PresenceGuard.detect_faces_rgb cfg inp.hog inp.cnn = .ok [l]

/-! ## Claim theorems -/

/-- Claim C1: in a presence_guard.py iteration that reaches detection and
finds exactly one face, if the sampled identity check runs and the minimum
distance exceeds the tolerance, or the check is skipped because
`frame_i % ENCODING_EVERY_N != 0`, or `face_encodings` returns no embedding,
then `lock_session` is invoked in that same iteration (followed by the
cooldown sleep), with `last_seen_someone` unchanged and no dependence on any
previous iteration's verdict. -/
theorem guard_single_face_unauthorized_locks
    (cfg : PresenceGuard.Config) (known : List Emb)
    (s : PresenceGuard.GuardState) (inp : PresenceGuard.IterInput)
    (hbt : (cfg.USE_BLUETOOTH && !inp.phonePresent) = false)
    (hframe : inp.frameOk = true)
    (l : Nat)
    (hdet : PresenceGuard.detect_faces_rgb cfg inp.hog inp.cnn = .ok [l])
    (hun :
      (s.frame_i % cfg.ENCODING_EVERY_N = 0 ∧
        (inp.encs = [] ∨
         ∃ e rest, inp.encs = e :: rest ∧
           cfg.ALLOWED_TOLERANCE ^ 2 < bestDist2 known e))
      ∨ s.frame_i % cfg.ENCODING_EVERY_N ≠ 0) :
    PresenceGuard.guardStep cfg known s inp =
      .next { s with frame_i := s.frame_i + 1 }
        [.lock, .sleep cfg.LOCK_COOLDOWN, .sleep cfg.CHECK_INTERVAL] := by
  have hauth :
      (if s.frame_i % cfg.ENCODING_EVERY_N = 0 then
        match inp.encs with
        | [] => false
        | e :: _ => decide (bestDist2 known e ≤ cfg.ALLOWED_TOLERANCE ^ 2)
       else false) = false := by
    rcases hun with ⟨hrun, hcase⟩ | hskip
    · rw [if_pos hrun]
      rcases hcase with hnil | ⟨e, rest, hencs, hgt⟩
      · rw [hnil]
      · rw [hencs]
        simp only [decide_eq_false_iff_not, not_le]
        exact hgt
    · rw [if_neg hskip]
  simp [PresenceGuard.guardStep, hbt, hframe, hdet, hauth]

/-- Claim C2: in a presence_guard.py iteration that reaches detection and
finds zero faces, `lock_session` runs iff `now - last_seen_someone` is at
least `ABSENCE_TIMEOUT`; strictly below the timeout nothing is locked; in
both cases the state (in particular `last_seen_someone`) is returned
unchanged, so any later zero-face iteration at a time `now'` at or after
`now` locks again. -/
theorem guard_zero_faces_lock_iff_timeout
    (cfg : PresenceGuard.Config) (known : List Emb)
    (s : PresenceGuard.GuardState) (inp : PresenceGuard.IterInput)
    (hbt : (cfg.USE_BLUETOOTH && !inp.phonePresent) = false)
    (hframe : inp.frameOk = true)
    (hdet : PresenceGuard.detect_faces_rgb cfg inp.hog inp.cnn = .ok []) :
    (cfg.ABSENCE_TIMEOUT ≤ inp.now - s.last_seen_someone →
      PresenceGuard.guardStep cfg known s inp =
        .next s [.lock, .sleep cfg.LOCK_COOLDOWN, .sleep cfg.CHECK_INTERVAL]) ∧
    (inp.now - s.last_seen_someone < cfg.ABSENCE_TIMEOUT →
      PresenceGuard.guardStep cfg known s inp =
        .next s [.sleep cfg.CHECK_INTERVAL]) ∧
    (∀ inp' : PresenceGuard.IterInput,
      cfg.ABSENCE_TIMEOUT ≤ inp.now - s.last_seen_someone →
      (cfg.USE_BLUETOOTH && !inp'.phonePresent) = false →
      inp'.frameOk = true →
      PresenceGuard.detect_faces_rgb cfg inp'.hog inp'.cnn = .ok [] →
      inp.now ≤ inp'.now →
      PresenceGuard.guardStep cfg known s inp' =
        .next s [.lock, .sleep cfg.LOCK_COOLDOWN, .sleep cfg.CHECK_INTERVAL]) := by
  refine ⟨fun htimeout => ?_, fun hwait => ?_, fun inp' htimeout hbt' hframe' hdet' hle => ?_⟩
  · simp [PresenceGuard.guardStep, hbt, hframe, hdet, htimeout]
  · simp [PresenceGuard.guardStep, hbt, hframe, hdet, not_le.mpr hwait]
  · have h' : cfg.ABSENCE_TIMEOUT ≤ inp'.now - s.last_seen_someone :=
      le_trans htimeout (by linarith)
    simp [PresenceGuard.guardStep, hbt', hframe', hdet', h']

/-- Claim C5: in a presence_guard.py iteration that reaches detection, finds
exactly one face, runs the sampled identity check (`frame_i % ENCODING_EVERY_N
== 0`), obtains an embedding, and measures a best distance within
`ALLOWED_TOLERANCE`, no lock is attempted and `last_seen_someone` becomes the
iteration's `now`. -/
theorem guard_single_face_authorized_no_lock
    (cfg : PresenceGuard.Config) (known : List Emb)
    (s : PresenceGuard.GuardState) (inp : PresenceGuard.IterInput)
    (hbt : (cfg.USE_BLUETOOTH && !inp.phonePresent) = false)
    (hframe : inp.frameOk = true)
    (l : Nat)
    (hdet : PresenceGuard.detect_faces_rgb cfg inp.hog inp.cnn = .ok [l])
    (hrun : s.frame_i % cfg.ENCODING_EVERY_N = 0)
    (e : Emb) (rest : List Emb) (hencs : inp.encs = e :: rest)
    (hdist : bestDist2 known e ≤ cfg.ALLOWED_TOLERANCE ^ 2) :
    PresenceGuard.guardStep cfg known s inp =
      .next { last_seen_someone := inp.now, frame_i := s.frame_i + 1 }
        [.sleep cfg.CHECK_INTERVAL] := by
  simp [PresenceGuard.guardStep, hbt, hframe, hdet, hrun, hencs, hdist]

/-- Claim C9: in a face_detect.py iteration whose frame read succeeded and
whose detected face count (the length of the `face_encodings` list) is not
exactly 1 — in particular a single zero-face iteration — `lock_session` runs
immediately; no state or elapsed-time hypothesis is needed, i.e. there is no
absence-timeout grace period in this entry point. -/
theorem fd_not_one_face_locks
    (cfg : FaceDetect.Config) (known : List Emb)
    (s : FaceDetect.FdState) (inp : FaceDetect.FdInput)
    (hread : inp.readOk = true)
    (hn : inp.encs.length ≠ 1) :
    FaceDetect.fdStep cfg known s inp =
      ({ last_lock_time := some inp.now }, [.lock, .sleep cfg.LOCK_COOLDOWN]) := by
  unfold FaceDetect.fdStep
  rw [hread]
  simp only [Bool.not_true, Bool.false_eq_true, if_false]
  match hencs : inp.encs with
  | [] => rfl
  | [e] => exact absurd (by rw [hencs]; rfl) hn
  | e₁ :: e₂ :: rest => rfl

/-- Claim C3 (counterexample): with the default configuration, a fresh state
and an iteration whose HOG detector call raises, `guardStep` ends in
`crashed` — the exception escapes the loop body and the loop terminates.
Under the claim's reading (raise treated as zero regions found, loop
continues) the result would instead equal the zero-face below-timeout result,
shown in the second conjunct for the same state and time: `next` with a
poll-interval sleep. -/
theorem guard_detector_exception_cx :
    PresenceGuard.guardStep PresenceGuard.defaultConfig [[0]]
      (PresenceGuard.initState 0)
      { phonePresent := true, frameOk := true, hog := .error (), cnn := .ok [],
        encs := [], now := 1 } = .crashed [] ∧
    PresenceGuard.guardStep PresenceGuard.defaultConfig [[0]]
      (PresenceGuard.initState 0)
      { phonePresent := true, frameOk := true, hog := .ok [], cnn := .ok [],
        encs := [], now := 1 } =
      .next (PresenceGuard.initState 0)
        [.sleep PresenceGuard.defaultConfig.CHECK_INTERVAL] := by
  constructor
  · rfl
  · norm_num [PresenceGuard.guardStep, PresenceGuard.detect_faces_rgb,
      PresenceGuard.defaultConfig, PresenceGuard.initState]

/-- Claim C3 (amended): if the face-detection capability raises during a
presence_guard.py iteration that reached detection (the `detect_faces_rgb`
call produces an exception, either from the HOG pass or from the CNN
fallback), the exception propagates out of the loop body; the top-level
handler logs the crash, releases the camera and the loop terminates.  It is
not treated as zero regions found and the loop does not continue. -/
theorem guard_detector_exception_crashes
    (cfg : PresenceGuard.Config) (known : List Emb)
    (s : PresenceGuard.GuardState) (inp : PresenceGuard.IterInput)
    (hbt : (cfg.USE_BLUETOOTH && !inp.phonePresent) = false)
    (hframe : inp.frameOk = true)
    (hdet : ∃ e, PresenceGuard.detect_faces_rgb cfg inp.hog inp.cnn = .error e) :
    PresenceGuard.guardStep cfg known s inp = .crashed [] := by
  obtain ⟨e, hdet⟩ := hdet
  simp [PresenceGuard.guardStep, hbt, hframe, hdet]

/-- Witness for C3's amended theorem at a concrete input: HOG raises while
the bluetooth gate is off and the frame read succeeded. -/
theorem guard_detector_exception_crashes_witness :
    PresenceGuard.guardStep PresenceGuard.defaultConfig [[0]]
      (PresenceGuard.initState 0)
      { phonePresent := false, frameOk := true, hog := .error (), cnn := .ok [],
        encs := [], now := 2 } = .crashed [] :=
  guard_detector_exception_crashes PresenceGuard.defaultConfig [[0]]
    (PresenceGuard.initState 0)
    { phonePresent := false, frameOk := true, hog := .error (), cnn := .ok [],
      encs := [], now := 2 }
    (by rfl) (by rfl) ⟨(), by rfl⟩

/-- Claim C4: whenever an iteration detects more than one face, a lock
attempt is triggered unconditionally — in presence_guard.py (any iteration
reaching detection with more than one location: the result does not consult
the identity data, the timeout, or the state) and in face_detect.py (more
than one entry in the `face_encodings` list). -/
theorem multiple_faces_lock_both :
    (∀ (cfg : PresenceGuard.Config) (known : List Emb)
        (s : PresenceGuard.GuardState) (inp : PresenceGuard.IterInput)
        (locs : List Nat),
      (cfg.USE_BLUETOOTH && !inp.phonePresent) = false →
      inp.frameOk = true →
      PresenceGuard.detect_faces_rgb cfg inp.hog inp.cnn = .ok locs →
      1 < locs.length →
      PresenceGuard.guardStep cfg known s inp =
        .next s [.lock, .sleep cfg.LOCK_COOLDOWN, .sleep cfg.CHECK_INTERVAL]) ∧
    (∀ (cfg : FaceDetect.Config) (known : List Emb)
        (s : FaceDetect.FdState) (inp : FaceDetect.FdInput),
      inp.readOk = true →
      1 < inp.encs.length →
      FaceDetect.fdStep cfg known s inp =
        ({ last_lock_time := some inp.now }, [.lock, .sleep cfg.LOCK_COOLDOWN])) := by
  constructor
  · intro cfg known s inp locs hbt hframe hdet hlen
    have hne : locs.length ≠ 1 := by omega
    have hnz : locs.length ≠ 0 := by omega
    simp [PresenceGuard.guardStep, hbt, hframe, hdet, hne, hnz]
  · intro cfg known s inp hread hlen
    unfold FaceDetect.fdStep
    rw [hread]
    simp only [Bool.not_true, Bool.false_eq_true, if_false]
    match hencs : inp.encs with
    | [] => exact absurd hlen (by rw [hencs]; simp)
    | [e] => exact absurd hlen (by rw [hencs]; simp)
    | e₁ :: e₂ :: rest => rfl

/-- Witness for C4 at concrete inputs: two detected faces in each entry
point. -/
theorem multiple_faces_lock_both_witness :
    PresenceGuard.guardStep PresenceGuard.defaultConfig [[0]]
      (PresenceGuard.initState 0)
      { phonePresent := false, frameOk := true, hog := .ok [3, 4], cnn := .ok [],
        encs := [], now := 2 } =
      .next (PresenceGuard.initState 0)
        [.lock, .sleep PresenceGuard.defaultConfig.LOCK_COOLDOWN,
         .sleep PresenceGuard.defaultConfig.CHECK_INTERVAL] ∧
    FaceDetect.fdStep FaceDetect.defaultConfig [[0]] { last_lock_time := none }
      { readOk := true, encs := [[1], [2]], now := 9 } =
      ({ last_lock_time := some 9 }, [.lock, .sleep FaceDetect.defaultConfig.LOCK_COOLDOWN]) :=
  ⟨multiple_faces_lock_both.1 PresenceGuard.defaultConfig [[0]]
      (PresenceGuard.initState 0)
      { phonePresent := false, frameOk := true, hog := .ok [3, 4], cnn := .ok [],
        encs := [], now := 2 }
      [3, 4] (by rfl) (by rfl) (by rfl) (by decide),
   multiple_faces_lock_both.2 FaceDetect.defaultConfig [[0]]
      { last_lock_time := none }
      { readOk := true, encs := [[1], [2]], now := 9 }
      (by rfl) (by decide)⟩

/-- Helper: a completed presence_guard.py iteration performs exactly one of
three event sequences. -/
theorem guardStep_evs_cases (cfg : PresenceGuard.Config) (known : List Emb)
    (s : PresenceGuard.GuardState) (inp : PresenceGuard.IterInput)
    (s' : PresenceGuard.GuardState) (evs : List Event)
    (h : PresenceGuard.guardStep cfg known s inp = .next s' evs) :
    evs = [.lock, .sleep cfg.LOCK_COOLDOWN, .sleep cfg.CHECK_INTERVAL] ∨
    evs = [.lock, .sleep cfg.LOCK_COOLDOWN] ∨
    evs = [.sleep cfg.CHECK_INTERVAL] := by
  unfold PresenceGuard.guardStep at h
  by_cases hb : (cfg.USE_BLUETOOTH && !inp.phonePresent) = true
  · rw [if_pos hb] at h
    cases h
    simp
  · rw [if_neg hb] at h
    by_cases hf : (!inp.frameOk) = true
    · rw [if_pos hf] at h
      cases h
      simp
    · rw [if_neg hf] at h
      cases hd : PresenceGuard.detect_faces_rgb cfg inp.hog inp.cnn with
      | error e =>
        simp only [hd] at h
        cases h
      | ok locs =>
        simp only [hd] at h
        by_cases h1 : locs.length = 1
        · rw [if_pos h1] at h
          by_cases ha : (if s.frame_i % cfg.ENCODING_EVERY_N = 0 then
              match inp.encs with
              | [] => false
              | e :: _ => decide (bestDist2 known e ≤ cfg.ALLOWED_TOLERANCE ^ 2)
            else false) = true
          · rw [if_pos ha] at h
            cases h
            simp
          · rw [if_neg ha] at h
            cases h
            simp
        · rw [if_neg h1] at h
          by_cases h0 : locs.length = 0
          · rw [if_pos h0] at h
            by_cases ht : cfg.ABSENCE_TIMEOUT ≤ inp.now - s.last_seen_someone
            · rw [if_pos ht] at h
              cases h
              simp
            · rw [if_neg ht] at h
              cases h
              simp
          · rw [if_neg h0] at h
            cases h
            simp

/-- Helper: a face_detect.py iteration performs exactly one of two event
sequences. -/
theorem fdStep_evs_cases (cfg : FaceDetect.Config) (known : List Emb)
    (s : FaceDetect.FdState) (inp : FaceDetect.FdInput) :
    (FaceDetect.fdStep cfg known s inp).2 = [.lock, .sleep cfg.LOCK_COOLDOWN] ∨
    (FaceDetect.fdStep cfg known s inp).2 = [.sleep cfg.CHECK_INTERVAL] := by
  unfold FaceDetect.fdStep
  repeat' split
  all_goals simp

/-- Claim C8: in both entry points, every `lock_session` invocation in a
completed iteration is immediately followed by a sleep of `LOCK_COOLDOWN`
before the next observation, and an iteration that locks nothing sleeps only
the `CHECK_INTERVAL` poll interval. -/
theorem lock_cooldown_discipline :
    (∀ (cfg : PresenceGuard.Config) (known : List Emb)
        (s : PresenceGuard.GuardState) (inp : PresenceGuard.IterInput)
        (s' : PresenceGuard.GuardState) (evs : List Event),
      PresenceGuard.guardStep cfg known s inp = .next s' evs →
      locksFollowedByCooldown cfg.LOCK_COOLDOWN evs ∧
      (Event.lock ∉ evs → evs = [.sleep cfg.CHECK_INTERVAL])) ∧
    (∀ (cfg : FaceDetect.Config) (known : List Emb)
        (s : FaceDetect.FdState) (inp : FaceDetect.FdInput),
      locksFollowedByCooldown cfg.LOCK_COOLDOWN (FaceDetect.fdStep cfg known s inp).2 ∧
      (Event.lock ∉ (FaceDetect.fdStep cfg known s inp).2 →
        (FaceDetect.fdStep cfg known s inp).2 = [.sleep cfg.CHECK_INTERVAL])) := by
  constructor
  · intro cfg known s inp s' evs h
    rcases guardStep_evs_cases cfg known s inp s' evs h with rfl | rfl | rfl
    · exact ⟨by simp [locksFollowedByCooldown], fun hno => absurd (by simp) hno⟩
    · exact ⟨by simp [locksFollowedByCooldown], fun hno => absurd (by simp) hno⟩
    · exact ⟨by simp [locksFollowedByCooldown], fun _ => rfl⟩
  · intro cfg known s inp
    rcases fdStep_evs_cases cfg known s inp with hevs | hevs
    · rw [hevs]
      exact ⟨by simp [locksFollowedByCooldown], fun hno => absurd (by simp) hno⟩
    · rw [hevs]
      exact ⟨by simp [locksFollowedByCooldown], fun _ => rfl⟩

/-- Witness for C8 at a concrete locking iteration and a concrete non-locking
iteration of each entry point. -/
theorem lock_cooldown_discipline_witness :
    (locksFollowedByCooldown PresenceGuard.defaultConfig.LOCK_COOLDOWN
        [.lock, .sleep PresenceGuard.defaultConfig.LOCK_COOLDOWN,
         .sleep PresenceGuard.defaultConfig.CHECK_INTERVAL] ∧
      (Event.lock ∉
          ([.lock, .sleep PresenceGuard.defaultConfig.LOCK_COOLDOWN,
            .sleep PresenceGuard.defaultConfig.CHECK_INTERVAL] : List Event) →
        ([.lock, .sleep PresenceGuard.defaultConfig.LOCK_COOLDOWN,
          .sleep PresenceGuard.defaultConfig.CHECK_INTERVAL] : List Event) =
          [.sleep PresenceGuard.defaultConfig.CHECK_INTERVAL])) ∧
    locksFollowedByCooldown FaceDetect.defaultConfig.LOCK_COOLDOWN
      (FaceDetect.fdStep FaceDetect.defaultConfig [[0]] { last_lock_time := none }
        { readOk := true, encs := [], now := 0 }).2 :=
  ⟨lock_cooldown_discipline.1 PresenceGuard.defaultConfig [[0]]
      (PresenceGuard.initState 0)
      { phonePresent := false, frameOk := true, hog := .ok [1, 2], cnn := .ok [],
        encs := [], now := 0 }
      (PresenceGuard.initState 0)
      [.lock, .sleep PresenceGuard.defaultConfig.LOCK_COOLDOWN,
       .sleep PresenceGuard.defaultConfig.CHECK_INTERVAL] (by rfl),
   (lock_cooldown_discipline.2 FaceDetect.defaultConfig [[0]]
      { last_lock_time := none } { readOk := true, encs := [], now := 0 }).1⟩

/-- Claim C10: the presence_guard.py sampling counter `frame_i` starts at 0
and, in a completed iteration, is incremented exactly when the iteration
reached detection and found exactly one face (whether or not it authorized);
bluetooth-gate locks, failed frame reads, zero-face and multiple-face
iterations leave it unchanged — so `frame_i % ENCODING_EVERY_N` samples
single-face iterations, not loop iterations. -/
theorem frame_i_counts_single_face_iterations :
    (∀ t : ℚ, (PresenceGuard.initState t).frame_i = 0) ∧
    (∀ (cfg : PresenceGuard.Config) (known : List Emb)
        (s : PresenceGuard.GuardState) (inp : PresenceGuard.IterInput)
        (s' : PresenceGuard.GuardState) (evs : List Event),
      PresenceGuard.guardStep cfg known s inp = .next s' evs →
      (singleFaceIter cfg inp → s'.frame_i = s.frame_i + 1) ∧
      (¬ singleFaceIter cfg inp → s'.frame_i = s.frame_i)) := by
  refine ⟨fun t => rfl, fun cfg known s inp s' evs h => ?_⟩
  unfold PresenceGuard.guardStep at h
  by_cases hb : (cfg.USE_BLUETOOTH && !inp.phonePresent) = true
  · rw [if_pos hb] at h
    cases h
    refine ⟨fun hsf => absurd hsf.1 ?_, fun _ => rfl⟩
    rw [hb]
    simp
  · rw [if_neg hb] at h
    by_cases hf : (!inp.frameOk) = true
    · rw [if_pos hf] at h
      cases h
      refine ⟨fun hsf => ?_, fun _ => rfl⟩
      rw [hsf.2.1] at hf
      simp at hf
    · rw [if_neg hf] at h
      cases hd : PresenceGuard.detect_faces_rgb cfg inp.hog inp.cnn with
      | error e =>
        simp only [hd] at h
        cases h
      | ok locs =>
        simp only [hd] at h
        by_cases h1 : locs.length = 1
        · rw [if_pos h1] at h
          have hsf : singleFaceIter cfg inp := by
            refine ⟨by simpa using hb, by simpa using hf, ?_⟩
            match locs, h1 with
            | [l], _ => exact ⟨l, hd⟩
          by_cases ha : (if s.frame_i % cfg.ENCODING_EVERY_N = 0 then
              match inp.encs with
              | [] => false
              | e :: _ => decide (bestDist2 known e ≤ cfg.ALLOWED_TOLERANCE ^ 2)
            else false) = true
          · rw [if_pos ha] at h
            cases h
            exact ⟨fun _ => rfl, fun hn => absurd hsf hn⟩
          · rw [if_neg ha] at h
            cases h
            exact ⟨fun _ => rfl, fun hn => absurd hsf hn⟩
        · rw [if_neg h1] at h
          have hnsf : ¬ singleFaceIter cfg inp := by
            rintro ⟨-, -, l, hdet⟩
            rw [hd] at hdet
            cases hdet
            exact h1 rfl
          by_cases h0 : locs.length = 0
          · rw [if_pos h0] at h
            by_cases ht : cfg.ABSENCE_TIMEOUT ≤ inp.now - s.last_seen_someone
            · rw [if_pos ht] at h
              cases h
              exact ⟨fun hsf => absurd hsf hnsf, fun _ => rfl⟩
            · rw [if_neg ht] at h
              cases h
              exact ⟨fun hsf => absurd hsf hnsf, fun _ => rfl⟩
          · rw [if_neg h0] at h
            cases h
            exact ⟨fun hsf => absurd hsf hnsf, fun _ => rfl⟩

/-- Witness for C10 at a concrete single-face iteration starting from the
initial state: the counter is 0 at startup and 1 after that iteration. -/
theorem frame_i_counts_single_face_iterations_witness :
    (PresenceGuard.initState 7).frame_i = 0 ∧
    ({ last_seen_someone := 0, frame_i := 0 + 1 } :
        PresenceGuard.GuardState).frame_i = (PresenceGuard.initState 0).frame_i + 1 :=
  ⟨frame_i_counts_single_face_iterations.1 7,
   (frame_i_counts_single_face_iterations.2 PresenceGuard.defaultConfig [[0]]
      (PresenceGuard.initState 0)
      { phonePresent := false, frameOk := true, hog := .ok [5], cnn := .ok [],
        encs := [], now := 3 }
      { last_seen_someone := 0, frame_i := 0 + 1 }
      [.lock, .sleep PresenceGuard.defaultConfig.LOCK_COOLDOWN,
       .sleep PresenceGuard.defaultConfig.CHECK_INTERVAL]
      (by rfl)).1 ⟨by rfl, by rfl, 5, by rfl⟩⟩

/-- Helper: presence_guard.py cascade when every command fails: all attempted
in order, result false, only the total-failure log line. -/
theorem pg_cascade_all_fail (run : List String → CmdOutcome)
    (cs : List (List String)) (h : ∀ c ∈ cs, run c ≠ .success) :
    PresenceGuard.lock_session_go run cs = (false, cs, [.allLockFailed]) := by
  induction cs with
  | nil => rfl
  | cons c rest ih =>
    have hc : run c ≠ .success := h c (by simp)
    have hrest : ∀ c' ∈ rest, run c' ≠ .success := fun c' hc' => h c' (by simp [hc'])
    unfold PresenceGuard.lock_session_go
    cases hrc : run c with
    | success => exact absurd hrc hc
    | fileNotFoundError => simp [ih hrest]
    | calledProcessError => simp [ih hrest]
    | timeoutExpired => simp [ih hrest]

/-- Helper: presence_guard.py cascade short-circuits at the first succeeding
command. -/
theorem pg_cascade_first_success (run : List String → CmdOutcome)
    (pre : List (List String)) (c : List String) (post : List (List String))
    (hpre : ∀ c' ∈ pre, run c' ≠ .success) (hc : run c = .success) :
    PresenceGuard.lock_session_go run (pre ++ c :: post) =
      (true, pre ++ [c], [.lockedVia c]) := by
  induction pre with
  | nil =>
    unfold PresenceGuard.lock_session_go
    simp [hc]
  | cons p rest ih =>
    have hp : run p ≠ .success := hpre p (by simp)
    have hrest : ∀ c' ∈ rest, run c' ≠ .success := fun c' hc' => hpre c' (by simp [hc'])
    unfold PresenceGuard.lock_session_go
    cases hrp : run p with
    | success => exact absurd hrp hp
    | fileNotFoundError => simp [ih hrest]
    | calledProcessError => simp [ih hrest]
    | timeoutExpired => simp [ih hrest]

/-- Helper: face_detect.py cascade when every command fails: result false and
all attempted in order (its logs additionally record timeouts). -/
theorem fd_cascade_all_fail (run : List String → CmdOutcome)
    (cs : List (List String)) (h : ∀ c ∈ cs, run c ≠ .success) :
    (FaceDetect.lock_session_go run cs).1 = false ∧
    (FaceDetect.lock_session_go run cs).2.1 = cs := by
  induction cs with
  | nil => exact ⟨rfl, rfl⟩
  | cons c rest ih =>
    have hc : run c ≠ .success := h c (by simp)
    have hrest : ∀ c' ∈ rest, run c' ≠ .success := fun c' hc' => h c' (by simp [hc'])
    unfold FaceDetect.lock_session_go
    cases hrc : run c with
    | success => exact absurd hrc hc
    | fileNotFoundError => simp [(ih hrest).1, (ih hrest).2]
    | calledProcessError => simp [(ih hrest).1, (ih hrest).2]
    | timeoutExpired => simp [(ih hrest).1, (ih hrest).2]

/-- Helper: face_detect.py cascade short-circuits at the first succeeding
command and logs it as the one used. -/
theorem fd_cascade_first_success (run : List String → CmdOutcome)
    (pre : List (List String)) (c : List String) (post : List (List String))
    (hpre : ∀ c' ∈ pre, run c' ≠ .success) (hc : run c = .success) :
    (FaceDetect.lock_session_go run (pre ++ c :: post)).1 = true ∧
    (FaceDetect.lock_session_go run (pre ++ c :: post)).2.1 = pre ++ [c] ∧
    LogEvent.lockedVia c ∈ (FaceDetect.lock_session_go run (pre ++ c :: post)).2.2 := by
  induction pre with
  | nil =>
    unfold FaceDetect.lock_session_go
    simp [hc]
  | cons p rest ih =>
    have hp : run p ≠ .success := hpre p (by simp)
    have hrest : ∀ c' ∈ rest, run c' ≠ .success := fun c' hc' => hpre c' (by simp [hc'])
    obtain ⟨ih1, ih2, ih3⟩ := ih hrest
    unfold FaceDetect.lock_session_go
    cases hrp : run p with
    | success => exact absurd hrp hp
    | fileNotFoundError => simp [hrp, ih1, ih2, ih3]
    | calledProcessError => simp [hrp, ih1, ih2, ih3]
    | timeoutExpired => simp [hrp, ih1, ih2, ih3]

/-- Claim C6 (counterexample): in presence_guard.py's `lock_session`, make
the first command fail with a missing executable and the second succeed.  The
function returns True, having attempted exactly the first two commands in
order, and its entire log is the single "Locked via" line for the second
command — the failing first command produced no log line, contradicting the
claim that each failing command is logged. -/
theorem lock_session_cascade_cx :
    PresenceGuard.lock_session
      (fun c => if c = ["loginctl", "lock-sessions"] then .fileNotFoundError
                else .success) =
      (true,
       [["loginctl", "lock-sessions"], ["gnome-screensaver-command", "--lock"]],
       [.lockedVia ["gnome-screensaver-command", "--lock"]]) := by
  rfl

/-- Claim C6 (amended): both `lock_session` implementations attempt the fixed
command list in order; the first success short-circuits the cascade, is
logged as the one used, and the function returns True; failing commands are
skipped without aborting the cascade (presence_guard.py writes no per-failure
log line; face_detect.py logs only unexpected errors such as timeouts); if
all commands fail, every one is attempted exactly once in order and the
function returns False — totality of the Lean model reflects that no
exception escapes. -/
theorem lock_session_cascade (run : List String → CmdOutcome) :
    ((∀ c ∈ lockCmds, run c ≠ .success) →
      PresenceGuard.lock_session run = (false, lockCmds, [.allLockFailed]) ∧
      (FaceDetect.lock_session run).1 = false ∧
      (FaceDetect.lock_session run).2.1 = lockCmds) ∧
    (∀ pre c post, lockCmds = pre ++ c :: post →
      (∀ c' ∈ pre, run c' ≠ .success) → run c = .success →
      PresenceGuard.lock_session run = (true, pre ++ [c], [.lockedVia c]) ∧
      (FaceDetect.lock_session run).1 = true ∧
      (FaceDetect.lock_session run).2.1 = pre ++ [c] ∧
      LogEvent.lockedVia c ∈ (FaceDetect.lock_session run).2.2) := by
  constructor
  · intro hfail
    exact ⟨pg_cascade_all_fail run lockCmds hfail,
           (fd_cascade_all_fail run lockCmds hfail).1,
           (fd_cascade_all_fail run lockCmds hfail).2⟩
  · intro pre c post hsplit hpre hc
    unfold PresenceGuard.lock_session FaceDetect.lock_session
    rw [hsplit]
    exact ⟨pg_cascade_first_success run pre c post hpre hc,
           (fd_cascade_first_success run pre c post hpre hc).1,
           (fd_cascade_first_success run pre c post hpre hc).2.1,
           (fd_cascade_first_success run pre c post hpre hc).2.2⟩

/-- Witness for C6's amended theorem: with every command failing, both
cascades attempt all four commands in order and report failure. -/
theorem lock_session_cascade_witness :
    PresenceGuard.lock_session (fun _ => .fileNotFoundError) =
      (false, lockCmds, [.allLockFailed]) ∧
    (FaceDetect.lock_session (fun _ => .fileNotFoundError)).1 = false ∧
    (FaceDetect.lock_session (fun _ => .fileNotFoundError)).2.1 = lockCmds :=
  (lock_session_cascade (fun _ => .fileNotFoundError)).1 (fun c _ => by decide)

/-- Helper: the enrollment loop accumulates an empty embedding list exactly
when no file yields a usable embedding. -/
theorem load_go_fst_empty_iff (files : List PresenceGuard.EnrollFile) :
    (PresenceGuard.load_go files).1 = [] ↔
      ∀ f ∈ files, ∀ e, f.outcome ≠ .ok e := by
  induction files with
  | nil => simp [PresenceGuard.load_go]
  | cons f fs ih =>
    unfold PresenceGuard.load_go
    cases ho : f.outcome <;> simp [ho, ih]

/-- Helper: every enrollment file in which no face is detected contributes a
warning log line, whatever the other files do. -/
theorem load_go_noFace_logged (files : List PresenceGuard.EnrollFile) :
    ∀ f ∈ files, f.outcome = .noFace →
      LogEvent.noFaceInEnroll f.name ∈ (PresenceGuard.load_go files).2 := by
  induction files with
  | nil => simp
  | cons g fs ih =>
    intro f hf hout
    rcases List.mem_cons.mp hf with rfl | hf
    · simp [PresenceGuard.load_go, hout]
    · cases ho : g.outcome <;>
        simp [PresenceGuard.load_go, ho, ih f hf hout]

/-- Claim C7: presence_guard.py startup exits with status 1 before the loop
iff the enrollment directory is missing, no enrollment file yields a usable
embedding, or the camera does not open; an enrollment image with no detected
face is logged as a warning and skipped; loading yields a nonempty encoding
set whenever at least one file yields an embedding. -/
theorem guard_startup_exit_iff (env : PresenceGuard.StartupEnv) :
    ((PresenceGuard.startup env = .exitNonZero 1) ↔
      (env.enrollDirExists = false ∨
       (∀ f ∈ env.files, ∀ e, f.outcome ≠ .ok e) ∨
       env.cameraOpens = false)) ∧
    (∀ f ∈ env.files, f.outcome = .noFace →
      LogEvent.noFaceInEnroll f.name ∈
        (PresenceGuard.load_known_encodings env.files).2) ∧
    ((∃ f ∈ env.files, ∃ e, f.outcome = .ok e) →
      ∃ ks, (PresenceGuard.load_known_encodings env.files).1 = some ks ∧
        ks ≠ []) := by
  refine ⟨?_, ?_, ?_⟩
  · cases hdir : env.enrollDirExists with
    | false =>
      exact iff_of_true (by simp [PresenceGuard.startup, hdir]) (Or.inl rfl)
    | true =>
      by_cases hemp : (PresenceGuard.load_go env.files).1 = []
      · refine iff_of_true ?_ (Or.inr (Or.inl ((load_go_fst_empty_iff env.files).mp hemp)))
        simp [PresenceGuard.startup, PresenceGuard.load_known_encodings, hdir, hemp]
      · have hload : (PresenceGuard.load_known_encodings env.files).1 =
            some (PresenceGuard.load_go env.files).1 := by
          simp [PresenceGuard.load_known_encodings, List.isEmpty_iff, hemp]
        have hlen : (PresenceGuard.load_go env.files).1.length ≠ 0 := by
          simpa [List.length_eq_zero] using hemp
        cases hcam : env.cameraOpens with
        | false =>
          refine iff_of_true ?_ (Or.inr (Or.inr rfl))
          simp [PresenceGuard.startup, hdir, hload, hlen, hcam]
        | true =>
          refine iff_of_false ?_ ?_
          · simp [PresenceGuard.startup, hdir, hload, hlen, hcam]
          · rintro (h | h | h)
            · exact Bool.noConfusion h
            · exact hemp ((load_go_fst_empty_iff env.files).mpr h)
            · exact Bool.noConfusion h
  · intro f hf hout
    simpa [PresenceGuard.load_known_encodings] using
      load_go_noFace_logged env.files f hf hout
  · rintro ⟨f, hf, e, hout⟩
    have hemp : (PresenceGuard.load_go env.files).1 ≠ [] := fun h =>
      (load_go_fst_empty_iff env.files).mp h f hf e hout
    refine ⟨(PresenceGuard.load_go env.files).1, ?_, hemp⟩
    simp [PresenceGuard.load_known_encodings, List.isEmpty_iff, hemp]

/-- Witness for C7 at a concrete two-file enrollment set (one usable image,
one image without a face) with the directory present and the camera open. -/
theorem guard_startup_exit_iff_witness :
    LogEvent.noFaceInEnroll "b" ∈
      (PresenceGuard.load_known_encodings
        [⟨"a", .ok [1]⟩, ⟨"b", .noFace⟩]).2 ∧
    ∃ ks, (PresenceGuard.load_known_encodings
        [⟨"a", .ok [1]⟩, ⟨"b", .noFace⟩]).1 = some ks ∧ ks ≠ [] :=
  ⟨(guard_startup_exit_iff ⟨true, [⟨"a", .ok [1]⟩, ⟨"b", .noFace⟩], true⟩).2.1
      ⟨"b", .noFace⟩ (List.mem_cons_of_mem _ (List.mem_cons_self _ _)) rfl,
   (guard_startup_exit_iff ⟨true, [⟨"a", .ok [1]⟩, ⟨"b", .noFace⟩], true⟩).2.2
      ⟨⟨"a", .ok [1]⟩, List.mem_cons_self _ _, [1], rfl⟩⟩

/-- Witness for C1 at a concrete iteration: one face, check runs
(`frame_i = 0`), embedding at squared distance 1 from the single enrolled
embedding, above the squared tolerance — the iteration locks. -/
theorem guard_single_face_unauthorized_locks_witness :
    PresenceGuard.guardStep PresenceGuard.defaultConfig [[0]]
      (PresenceGuard.initState 0)
      { phonePresent := false, frameOk := true, hog := .ok [2], cnn := .ok [],
        encs := [[1]], now := 1 } =
      .next { last_seen_someone := 0, frame_i := 0 + 1 }
        [.lock, .sleep PresenceGuard.defaultConfig.LOCK_COOLDOWN,
         .sleep PresenceGuard.defaultConfig.CHECK_INTERVAL] :=
  guard_single_face_unauthorized_locks PresenceGuard.defaultConfig [[0]]
    (PresenceGuard.initState 0)
    { phonePresent := false, frameOk := true, hog := .ok [2], cnn := .ok [],
      encs := [[1]], now := 1 }
    (by rfl) (by rfl) 2 (by rfl)
    (Or.inl ⟨by rfl,
      Or.inr ⟨[1], [], rfl,
        by norm_num [bestDist2, dist2, PresenceGuard.defaultConfig]⟩⟩)

/-- Witness for C2 at a concrete zero-face iteration 10 seconds after
`last_seen_someone`, past the 6-second timeout — the iteration locks. -/
theorem guard_zero_faces_lock_iff_timeout_witness :
    PresenceGuard.guardStep PresenceGuard.defaultConfig [[0]]
      (PresenceGuard.initState 0)
      { phonePresent := false, frameOk := true, hog := .ok [], cnn := .ok [],
        encs := [], now := 10 } =
      .next (PresenceGuard.initState 0)
        [.lock, .sleep PresenceGuard.defaultConfig.LOCK_COOLDOWN,
         .sleep PresenceGuard.defaultConfig.CHECK_INTERVAL] :=
  (guard_zero_faces_lock_iff_timeout PresenceGuard.defaultConfig [[0]]
    (PresenceGuard.initState 0)
    { phonePresent := false, frameOk := true, hog := .ok [], cnn := .ok [],
      encs := [], now := 10 }
    (by rfl) (by rfl) (by rfl)).1
    (by norm_num [PresenceGuard.defaultConfig, PresenceGuard.initState])

/-- Witness for C5 at a concrete iteration: one face whose embedding matches
an enrolled embedding exactly (distance 0) — no lock, `last_seen_someone`
advances to the iteration's time. -/
theorem guard_single_face_authorized_no_lock_witness :
    PresenceGuard.guardStep PresenceGuard.defaultConfig [[0]]
      (PresenceGuard.initState 0)
      { phonePresent := false, frameOk := true, hog := .ok [4], cnn := .ok [],
        encs := [[0]], now := 5 } =
      .next { last_seen_someone := 5, frame_i := 0 + 1 }
        [.sleep PresenceGuard.defaultConfig.CHECK_INTERVAL] :=
  guard_single_face_authorized_no_lock PresenceGuard.defaultConfig [[0]]
    (PresenceGuard.initState 0)
    { phonePresent := false, frameOk := true, hog := .ok [4], cnn := .ok [],
      encs := [[0]], now := 5 }
    (by rfl) (by rfl) 4 (by rfl) (by rfl) [0] [] rfl
    (by norm_num [bestDist2, dist2, PresenceGuard.defaultConfig])

/-- Witness for C9 at a concrete zero-face face_detect.py iteration: the very
first empty frame locks. -/
theorem fd_not_one_face_locks_witness :
    FaceDetect.fdStep FaceDetect.defaultConfig [[0]] { last_lock_time := none }
      { readOk := true, encs := [], now := 3 } =
      ({ last_lock_time := some 3 }, [.lock, .sleep FaceDetect.defaultConfig.LOCK_COOLDOWN]) :=
  fd_not_one_face_locks FaceDetect.defaultConfig [[0]] { last_lock_time := none }
    { readOk := true, encs := [], now := 3 } (by rfl) (by decide)
